import Mathlib

/-!
Verification of the request-admission pipeline of the EAS backend
(`backend/server.js`): rate limiting, CORS policy, middleware ordering,
routing fallback, response envelopes, startup sequencing and graceful
shutdown. Each definition is a shallow embedding of the corresponding
fragment of `server.js`.
-/

namespace EAS

/-- Outcome of the downstream handler for a request that was admitted
by the limiters: a successful (2xx/3xx) response or a failed one. -/
inductive Outcome where
  | success
  | failure
  deriving DecidableEq, Repr

/-- Decision taken by a middleware stage for one request: let it
proceed down the chain, or reject it with an HTTP status and message. -/
inductive Decision where
  | proceed
  | reject (status : Nat) (message : String)
  deriving DecidableEq, Repr

/-- Configuration record of one `express-rate-limit` instance, as built in
`server.js` (fields `windowMs`, `max`, `message`, `skipSuccessfulRequests`). -/
structure RateLimitConfig where
  windowMs : Nat
  max : Nat
  message : String
  skipSuccessfulRequests : Bool
  deriving DecidableEq, Repr

/-- The general limiter of `server.js` lines 20-26:
`windowMs: 15 * 60 * 1000, max: 100, message: 'Too many requests …'`,
no success exemption. -/
def limiter : RateLimitConfig :=
  { windowMs := 15 * 60 * 1000
    max := 100
    message := "Too many requests from this IP, please try again later."
    skipSuccessfulRequests := false }

/-- The auth limiter of `server.js` lines 30-35:
`windowMs: 15 * 60 * 1000, max: 5, message: 'Too many login attempts …',
skipSuccessfulRequests: true`. -/
def authLimiter : RateLimitConfig :=
  { windowMs := 15 * 60 * 1000
    max := 5
    message := "Too many login attempts, please try again later."
    skipSuccessfulRequests := true }

/-- One request hitting a rate limiter within a single window, starting
from `hits` already-counted requests for this client key.  Following
`express-rate-limit`: the counter is incremented on arrival; if it now
exceeds `max` the request is rejected with status 429 and the configured
message (and the limiter's own 429 response, being non-2xx, is never
un-counted); otherwise the request proceeds, and when
`skipSuccessfulRequests` is set a successful downstream response is
un-counted on the response path. Returns the new counter and decision. -/
def rateLimitRequest (cfg : RateLimitConfig) (hits : Nat) (o : Outcome) :
    Nat × Decision :=
  let h := hits + 1
  if cfg.max < h then
    (h, Decision.reject 429 cfg.message)
  else
    let h2 := match cfg.skipSuccessfulRequests, o with
      | true, Outcome.success => h - 1
      | _, _ => h
    (h2, Decision.proceed)

/-- Run a sequence of requests (given by their downstream outcomes)
through one limiter within a single window; returns the final counter
and the per-request decisions in order. -/
def runLimiter (cfg : RateLimitConfig) (hits : Nat) :
    List Outcome → Nat × List Decision
  | [] => (hits, [])
  | o :: os =>
      let r := rateLimitRequest cfg hits o
      let rest := runLimiter cfg r.1 os
      (rest.1, r.2 :: rest.2)

/-- For a limiter without success exemption (the general limiter), the
counter after a batch of requests is the starting counter plus the batch
length, whatever the outcomes. -/
theorem runLimiter_count_all (cfg : RateLimitConfig)
    (hcfg : cfg.skipSuccessfulRequests = false) :
    ∀ (os : List Outcome) (hits : Nat),
      (runLimiter cfg hits os).1 = hits + os.length := by
  intro os
  induction os with
  | nil => intro hits; simp [runLimiter]
  | cons o os ih =>
      intro hits
      simp only [runLimiter, rateLimitRequest, hcfg]
      split
      · rw [ih]
        simp [List.length_cons]
        omega
      · rw [ih]
        simp [List.length_cons]
        omega

/-- C2: for every client key within a single 15-minute window of the
general limiter (max = 100), the request that arrives after `prior`
earlier requests — i.e. request number `prior + 1` of the window — is
allowed to proceed when that number is at most 100, and is rejected with
the 429 rate-limit error carrying the configured message when that
number is 101 or more; in particular the 100th request is not rejected
and the 101st is. -/
theorem general_limiter_threshold (prior : List Outcome) (o : Outcome) :
    (rateLimitRequest limiter (runLimiter limiter 0 prior).1 o).2 =
      if prior.length + 1 ≤ 100 then Decision.proceed
      else Decision.reject 429
        "Too many requests from this IP, please try again later." := by
  rw [runLimiter_count_all limiter rfl prior 0]
  simp only [rateLimitRequest, limiter, Nat.zero_add]
  rcases Nat.lt_or_ge 100 (prior.length + 1) with h | h
  · rw [if_pos h, if_neg (by omega)]
  · rw [if_neg (by omega), if_pos (by omega)]

/-- C3: for the auth limiter (window = 15 minutes, max = 5,
`skipSuccessfulRequests: true`) applied to the login and registration
endpoints: an admitted request whose downstream response is successful
leaves the counter unchanged (consumes no quota); five consecutive
failed attempts from one client in a fresh window are all admitted and
drive the counter to 5, exhausting the quota; and the sixth attempt of
that window is rejected with the 429 rate-limit error and the configured
message, whatever its outcome would have been. -/
theorem auth_limiter_success_exempt (hits : Nat) (o : Outcome) :
    (hits + 1 ≤ 5 →
      rateLimitRequest authLimiter hits Outcome.success =
        (hits, Decision.proceed)) ∧
    runLimiter authLimiter 0 (List.replicate 5 Outcome.failure) =
      (5, List.replicate 5 Decision.proceed) ∧
    (rateLimitRequest authLimiter 5 o).2 =
      Decision.reject 429
        "Too many login attempts, please try again later." := by
  refine ⟨?_, by rfl, ?_⟩
  · intro h
    simp only [rateLimitRequest, authLimiter]
    rw [if_neg (by omega)]
    simp
  · rcases o with _ | _ <;> rfl

/-- Witness for C3 at a concrete state: a successful first attempt
leaves the counter at 0, and a sixth attempt on a counter of 5 is
rejected. -/
theorem auth_limiter_success_exempt_witness :
    0 + 1 ≤ 5 ∧
    rateLimitRequest authLimiter 0 Outcome.success = (0, Decision.proceed) ∧
    (rateLimitRequest authLimiter 5 Outcome.failure).2 =
      Decision.reject 429
        "Too many login attempts, please try again later." :=
  ⟨by decide,
    (auth_limiter_success_exempt 0 Outcome.failure).1 (by decide),
    (auth_limiter_success_exempt 0 Outcome.failure).2.2⟩

/-- Result of the CORS evaluator for one request: whether the origin is
allowed, whether credentialed exchange is granted (the `credentials:
true` option of `corsOptions`), and the error passed to the callback on
denial. -/
structure CorsResult where
  allowed : Bool
  credentials : Bool
  error : Option String
  deriving DecidableEq, Repr

/-- The allow-list built in `corsOptions.origin` (`server.js` lines
55-59): the two localhost development origins plus
`process.env.FRONTEND_URL`, with falsy entries (an unset variable, or
the empty string) removed by `.filter(Boolean)`. -/
def allowedOrigins (frontendUrl : Option String) : List String :=
  (["http://localhost:3000", "http://localhost:5173"] ++
      frontendUrl.toList).filter (fun s => s != "")

/-- The CORS decision function of `corsOptions` (`server.js` lines
51-69): a request without an origin header is allowed; otherwise the
origin is allowed when it is in the allow-list or `NODE_ENV` is not
`"production"`, and denied with the error `'Not allowed by CORS'`
otherwise.  An allowed decision carries `credentials: true` from the
static configuration. -/
def corsDecide (origin frontendUrl : Option String) (nodeEnv : String) :
    CorsResult :=
  match origin with
  | none => { allowed := true, credentials := true, error := none }
  | some o =>
      if (allowedOrigins frontendUrl).contains o || nodeEnv != "production" then
        { allowed := true, credentials := true, error := none }
      else
        { allowed := false, credentials := false,
          error := some "Not allowed by CORS" }

/-- The allow-list of `corsOptions` holds exactly the two localhost
development origins and a non-empty `FRONTEND_URL` value. -/
theorem mem_allowedOrigins (o : String) (fu : Option String) :
    o ∈ allowedOrigins fu ↔
      (o = "http://localhost:3000" ∨ o = "http://localhost:5173" ∨
        (fu = some o ∧ o ≠ "")) := by
  rw [allowedOrigins, List.mem_filter]
  simp only [List.mem_append, List.mem_cons, List.not_mem_nil, or_false,
    Option.mem_toList, Option.mem_def, bne_iff_ne, ne_eq]
  constructor
  · rintro ⟨(h1 | h1) | h1, h2⟩
    · exact Or.inl h1
    · exact Or.inr (Or.inl h1)
    · exact Or.inr (Or.inr ⟨h1, h2⟩)
  · rintro (h | h | ⟨h1, h2⟩)
    · exact ⟨Or.inl (Or.inl h), by rw [h]; decide⟩
    · exact ⟨Or.inl (Or.inr h), by rw [h]; decide⟩
    · exact ⟨Or.inr h1, h2⟩

/-- C1: the CORS evaluator allows any request without an origin header;
a request with an origin is allowed exactly when the origin is in the
allow-list (`http://localhost:3000`, `http://localhost:5173`, and
`FRONTEND_URL` when set to a non-empty string) or the environment mode
is not `"production"`; a denied request carries the policy-violation
error `'Not allowed by CORS'`; and every allowed decision grants
credentialed exchange. -/
theorem cors_policy (origin frontendUrl : Option String) (nodeEnv : String) :
    (corsDecide none frontendUrl nodeEnv).allowed = true ∧
    (∀ o : String,
      ((corsDecide (some o) frontendUrl nodeEnv).allowed = true ↔
        (o ∈ allowedOrigins frontendUrl ∨ nodeEnv ≠ "production"))) ∧
    (∀ o : String,
      (o = "http://localhost:3000" ∨ o = "http://localhost:5173" ∨
          (frontendUrl = some o ∧ o ≠ "")) ↔
        o ∈ allowedOrigins frontendUrl) ∧
    (∀ o : String,
      (corsDecide (some o) frontendUrl nodeEnv).allowed = false →
        (corsDecide (some o) frontendUrl nodeEnv).error =
          some "Not allowed by CORS") ∧
    ((corsDecide origin frontendUrl nodeEnv).allowed = true →
      (corsDecide origin frontendUrl nodeEnv).credentials = true) := by
  refine ⟨rfl, ?_, fun o => (mem_allowedOrigins o frontendUrl).symm, ?_, ?_⟩
  · intro o
    simp only [corsDecide]
    split
    · rename_i h
      simp only [true_iff]
      rcases Bool.or_eq_true_iff.mp h with h1 | h1
      · exact Or.inl (by simpa using h1)
      · exact Or.inr (by simpa using h1)
    · rename_i h
      simp only [Bool.false_eq_true, false_iff]
      intro hc
      apply h
      rcases hc with h1 | h1
      · exact Bool.or_eq_true_iff.mpr (Or.inl (by simpa using h1))
      · exact Bool.or_eq_true_iff.mpr (Or.inr (by simpa using h1))
  · intro o
    simp only [corsDecide]
    split
    · intro h
      exact absurd h (by simp)
    · intro _
      rfl
  · rcases origin with _ | o
    · intro _; rfl
    · simp only [corsDecide]
      split
      · intro _; rfl
      · intro h
        exact absurd h (by simp)

/-- Witness for C1 at concrete inputs: with no `FRONTEND_URL` in
production mode, an absent origin is allowed, a listed origin is
allowed, and an unlisted origin is denied with the policy-violation
error. -/
theorem cors_policy_witness :
    (corsDecide none none "production").allowed = true ∧
    (corsDecide (some "http://localhost:3000") none "production").allowed
      = true ∧
    (corsDecide (some "http://evil.example") none "production").allowed
      = false ∧
    (corsDecide (some "http://evil.example") none "production").error =
      some "Not allowed by CORS" ∧
    (corsDecide (some "http://localhost:3000") none "production").credentials
      = true :=
  ⟨(cors_policy none none "production").1,
    ((cors_policy none none "production").2.1 "http://localhost:3000").mpr
      (Or.inl (by decide)),
    by decide,
    (cors_policy none none "production").2.2.2.1 "http://evil.example"
      (by decide),
    (cors_policy (some "http://localhost:3000") none "production").2.2.2.2
      (by decide)⟩

/-- Observable events of the process lifecycle: startup (`connectDB`)
and the SIGTERM graceful-shutdown handler of `server.js`. -/
inductive ProcEvent where
  | dbConnectAttempt
  | dbConnected
  | portBound (port : Nat)
  | listenFailed (code : String)
  | sigterm
  | stopAccepting
  | listenerClosed
  | dbCloseStarted
  | dbClosed
  | exited (code : Nat)
  deriving DecidableEq, Repr

/-- Model of `server.close(cb)`: stop accepting new connections, drain in-flight
requests, and only then fire the listener-closed callback `k`. -/
def serverClose (k : List ProcEvent) : List ProcEvent :=
  ProcEvent.stopAccepting :: ProcEvent.listenerClosed :: k

/-- Model of `mongoose.connection.close(false, cb)`: start closing the database
connection and fire the callback `k` once it is closed. -/
def mongooseClose (k : List ProcEvent) : List ProcEvent :=
  ProcEvent.dbCloseStarted :: ProcEvent.dbClosed :: k

/-- Model of `process.exit(code)`: terminate the process. -/
def processExit (code : Nat) : List ProcEvent :=
  [ProcEvent.exited code]

/-- The SIGTERM handler registered in `connectDB` (`server.js` lines
162-168): `server.close(() => mongoose.connection.close(false, () =>
process.exit(0)))`, producing the event trace that follows the signal. -/
def sigtermTrace : List ProcEvent :=
  ProcEvent.sigterm :: serverClose (mongooseClose (processExit 0))

/-- C4: on a termination signal while running, the shutdown coordinator
produces exactly the trace: signal, stop accepting and drain, listener
closed, database close started, database closed, exit with code 0 —
each stage occurring exactly once and strictly after the previous
stage's completion callback, never reversed. -/
theorem graceful_shutdown_order :
    sigtermTrace =
      [ProcEvent.sigterm, ProcEvent.stopAccepting,
        ProcEvent.listenerClosed, ProcEvent.dbCloseStarted,
        ProcEvent.dbClosed, ProcEvent.exited 0] ∧
    sigtermTrace.indexOf ProcEvent.stopAccepting <
      sigtermTrace.indexOf ProcEvent.listenerClosed ∧
    sigtermTrace.indexOf ProcEvent.listenerClosed <
      sigtermTrace.indexOf ProcEvent.dbCloseStarted ∧
    sigtermTrace.indexOf ProcEvent.dbCloseStarted <
      sigtermTrace.indexOf ProcEvent.dbClosed ∧
    sigtermTrace.indexOf ProcEvent.dbClosed <
      sigtermTrace.indexOf (ProcEvent.exited 0) ∧
    sigtermTrace.count ProcEvent.stopAccepting = 1 ∧
    sigtermTrace.count ProcEvent.dbCloseStarted = 1 ∧
    sigtermTrace.count (ProcEvent.exited 0) = 1 ∧
    (∀ c : Nat, ProcEvent.exited c ∈ sigtermTrace → c = 0) := by
  refine ⟨rfl, by decide, by decide, by decide, by decide,
    by decide, by decide, by decide, ?_⟩
  intro c hc
  simp [sigtermTrace, serverClose, mongooseClose, processExit] at hc
  exact hc

/-- Witness for C4: the final conjunct applied at exit code 0, which
does occur in the trace. -/
theorem graceful_shutdown_order_witness :
    ProcEvent.exited 0 ∈ sigtermTrace ∧ (0 : Nat) = 0 :=
  ⟨by decide, graceful_shutdown_order.2.2.2.2.2.2.2.2 0 (by decide)⟩

/-- The startup sequencer `connectDB` (`server.js` lines 136-173) as an
event trace, parameterised by whether the database connection succeeds
and by the result of binding the port (`none` = bound, `some code` = the
listener's error event fired with that code).  On connection failure the
process exits with code 1 before any listen attempt; on a listen error —
`EADDRINUSE` or any other — the handler exits with code 1. -/
def connectDB (dbOk : Bool) (listenErr : Option String)
    (portEnv : Option Nat) : List ProcEvent :=
  if dbOk then
    let port := portEnv.getD 5000
    ProcEvent.dbConnectAttempt :: ProcEvent.dbConnected ::
      (match listenErr with
        | none => [ProcEvent.portBound port]
        | some code =>
            if code = "EADDRINUSE" then
              [ProcEvent.listenFailed code, ProcEvent.exited 1]
            else
              [ProcEvent.listenFailed code, ProcEvent.exited 1])
  else
    [ProcEvent.dbConnectAttempt, ProcEvent.exited 1]

/-- Recogniser for port-bind events, used to state that a startup trace
never binds the port. -/
def isPortBound : ProcEvent → Bool
  | ProcEvent.portBound _ => true
  | _ => false

/-- C5: the port is bound only after the database connection succeeds
(the successful trace binds it strictly after the connected event); on
database-connection failure the process exits with code 1 and the trace
holds no port-bind event; and on a bind failure because the port is in
use the process exits with code 1 rather than binding another port. -/
theorem startup_sequencing (listenErr : Option String)
    (portEnv : Option Nat) :
    connectDB false listenErr portEnv =
      [ProcEvent.dbConnectAttempt, ProcEvent.exited 1] ∧
    (connectDB false listenErr portEnv).countP isPortBound = 0 ∧
    connectDB true none portEnv =
      [ProcEvent.dbConnectAttempt, ProcEvent.dbConnected,
        ProcEvent.portBound (portEnv.getD 5000)] ∧
    (connectDB true none portEnv).indexOf ProcEvent.dbConnected <
      (connectDB true none portEnv).indexOf
        (ProcEvent.portBound (portEnv.getD 5000)) ∧
    connectDB true (some "EADDRINUSE") portEnv =
      [ProcEvent.dbConnectAttempt, ProcEvent.dbConnected,
        ProcEvent.listenFailed "EADDRINUSE", ProcEvent.exited 1] ∧
    (connectDB true (some "EADDRINUSE") portEnv).countP isPortBound = 0 := by
  refine ⟨rfl, by simp [connectDB, isPortBound], ?_, ?_, ?_, ?_⟩
  · simp [connectDB]
  · have h : connectDB true none portEnv =
        [ProcEvent.dbConnectAttempt, ProcEvent.dbConnected,
          ProcEvent.portBound (portEnv.getD 5000)] := by
      simp [connectDB]
    rw [h]
    simp [List.indexOf_cons]
  · simp [connectDB]
  · simp [connectDB, isPortBound]

/-- The middleware and routing stages registered on the Express app, in
the order `server.js` registers them. -/
inductive Stage where
  | securityHeaders
  | generalRateLimit
  | authRateLimitLogin
  | authRateLimitRegister
  | logging
  | corsCheck
  | jsonBody
  | urlencodedBody
  | staticUploads
  | staticUploadsLeaves
  | rootRoute
  | apiRoutes
  | healthRoute
  | errorHandlerStage
  | notFoundHandler
  deriving DecidableEq, Repr

/-- The registration order of `server.js`: `helmet()` (line 17), the
general limiter (27), the auth limiter on the two auth endpoints
(36-37), `morgan` logging (42-46), `cors(corsOptions)` (71), the JSON
and urlencoded body parsers (76-77), the two static mounts (82-83), the
root route (88), the API routers (99-107), the health route (110), the
error handler (123) and the 404 fallback (125). -/
def middlewareChain : List Stage :=
  [Stage.securityHeaders, Stage.generalRateLimit, Stage.authRateLimitLogin,
    Stage.authRateLimitRegister, Stage.logging, Stage.corsCheck,
    Stage.jsonBody, Stage.urlencodedBody, Stage.staticUploads,
    Stage.staticUploadsLeaves, Stage.rootRoute, Stage.apiRoutes,
    Stage.healthRoute, Stage.errorHandlerStage, Stage.notFoundHandler]

/-- C6: for every request, the admission stages run in the fixed
registered order — security headers strictly before every rate limiter,
every rate limiter strictly before logging, logging strictly before the
CORS check, the CORS check strictly before both body parsers, and both
body parsers strictly before the static mounts and every route-dispatch
stage — with each stage registered exactly once, so no reordering is
possible for any request. -/
theorem middleware_fixed_order :
    middlewareChain.indexOf Stage.securityHeaders <
      middlewareChain.indexOf Stage.generalRateLimit ∧
    middlewareChain.indexOf Stage.securityHeaders <
      middlewareChain.indexOf Stage.authRateLimitLogin ∧
    middlewareChain.indexOf Stage.generalRateLimit <
      middlewareChain.indexOf Stage.logging ∧
    middlewareChain.indexOf Stage.authRateLimitLogin <
      middlewareChain.indexOf Stage.logging ∧
    middlewareChain.indexOf Stage.authRateLimitRegister <
      middlewareChain.indexOf Stage.logging ∧
    middlewareChain.indexOf Stage.logging <
      middlewareChain.indexOf Stage.corsCheck ∧
    middlewareChain.indexOf Stage.corsCheck <
      middlewareChain.indexOf Stage.jsonBody ∧
    middlewareChain.indexOf Stage.corsCheck <
      middlewareChain.indexOf Stage.urlencodedBody ∧
    middlewareChain.indexOf Stage.jsonBody <
      middlewareChain.indexOf Stage.staticUploads ∧
    middlewareChain.indexOf Stage.urlencodedBody <
      middlewareChain.indexOf Stage.staticUploads ∧
    middlewareChain.indexOf Stage.urlencodedBody <
      middlewareChain.indexOf Stage.rootRoute ∧
    middlewareChain.indexOf Stage.urlencodedBody <
      middlewareChain.indexOf Stage.apiRoutes ∧
    middlewareChain.indexOf Stage.urlencodedBody <
      middlewareChain.indexOf Stage.healthRoute ∧
    middlewareChain.Nodup := by
  decide

/-- A JSON field value in a response body, as far as this layer's
envelopes need: strings and booleans. -/
inductive JVal where
  | str (s : String)
  | bool (b : Bool)
  deriving DecidableEq, Repr

/-- A JSON response of this layer: HTTP status code plus body given as
an ordered field list. -/
structure Response where
  status : Nat
  body : List (String × JVal)
  deriving DecidableEq, Repr

/-- Express mount-path matching for `app.use(mount, …)`: a trailing
slash on the mount is ignored, the bare mount `/` matches everything,
and otherwise the request path must equal the mount or continue it at a
`/` boundary. -/
def mountMatches (mount path : String) : Bool :=
  let m := if mount.data ≠ ['/'] ∧ mount.data.getLast? = some '/' then
      mount.data.dropLast
    else mount.data
  if m = ['/'] then true
  else path.data == m || (m ++ ['/']).isPrefixOf path.data

/-- Exact-path GET routes registered inline in `server.js`: the root
route (line 88) and the health route (line 110). -/
def exactRoutes : List String :=
  ["/", "/api/health"]

/-- Mount paths of the API routers and static directories
(`server.js` lines 82-83 and 99-107). -/
def routerMounts : List String :=
  ["/api/uploads", "/api/uploads/leaves", "/api/auth", "/api/attendance",
    "/api/dashboard", "/api/badges", "/api/profile", "/api/leaves",
    "/api/leave-types", "/api/notifications", "/api/leave-analytics"]

/-- Whether some mounted route prefix or inline route claims the path. -/
def routeMatched (path : String) : Bool :=
  exactRoutes.contains path || routerMounts.any (fun m => mountMatches m path)

/-- The 404 fallback of `server.js` lines 125-131:
`res.status(404).json({ success: false, error: 'Route not found',
path: req.originalUrl })`. -/
def notFoundResponse (originalUrl : String) : Response :=
  { status := 404
    body := [("success", JVal.bool false),
      ("error", JVal.str "Route not found"),
      ("path", JVal.str originalUrl)] }

/-- Route dispatch after the admission pipeline: a request whose path no
mounted prefix and no inline route claims falls through to the 404
fallback; a claimed request is handled by its collaborator
(not modelled here), signalled by `none`. -/
def dispatch (originalUrl : String) : Option Response :=
  if routeMatched originalUrl then none
  else some (notFoundResponse originalUrl)

/-- C7: every request whose path matches no mounted route prefix is
answered by the fallback layer with status 404 and a JSON body holding
`success: false`, the error string `Route not found`, and a `path` field
echoing the originally requested URL. -/
theorem fallback_not_found (originalUrl : String)
    (h : routeMatched originalUrl = false) :
    dispatch originalUrl = some (notFoundResponse originalUrl) ∧
    (notFoundResponse originalUrl).status = 404 ∧
    (notFoundResponse originalUrl).body.lookup "success" =
      some (JVal.bool false) ∧
    (notFoundResponse originalUrl).body.lookup "error" =
      some (JVal.str "Route not found") ∧
    (notFoundResponse originalUrl).body.lookup "path" =
      some (JVal.str originalUrl) := by
  refine ⟨?_, rfl, rfl, rfl, rfl⟩
  rw [dispatch, h]
  simp

/-- Witness for C7 at the concrete unmatched path `/nope`. -/
theorem fallback_not_found_witness :
    routeMatched "/nope" = false ∧
    dispatch "/nope" = some (notFoundResponse "/nope") ∧
    (notFoundResponse "/nope").body.lookup "path" =
      some (JVal.str "/nope") :=
  ⟨by decide, (fallback_not_found "/nope" (by decide)).1,
    (fallback_not_found "/nope" (by decide)).2.2.2.2⟩

/-- JavaScript `value || fallback` over an environment variable: an
unset variable or the empty string (both falsy) yield the fallback. -/
def envOrDefault (v : Option String) (fallback : String) : String :=
  match v with
  | none => fallback
  | some s => if s = "" then fallback else s

/-- The root route response of `server.js` lines 88-94:
`res.json({ success: true, message: 'Backend Running Successfully 🚀',
timestamp: new Date().toISOString() })`, with the default status 200
of `res.json`. -/
def rootResponse (timestamp : String) : Response :=
  { status := 200
    body := [("success", JVal.bool true),
      ("message", JVal.str "Backend Running Successfully 🚀"),
      ("timestamp", JVal.str timestamp)] }

/-- The health route response of `server.js` lines 110-117:
`res.json({ status: 'OK', message: 'Server is running', timestamp: …,
environment: process.env.NODE_ENV || 'development' })`, with the
default status 200 of `res.json`. -/
def healthResponse (timestamp : String) (nodeEnv : Option String) :
    Response :=
  { status := 200
    body := [("status", JVal.str "OK"),
      ("message", JVal.str "Server is running"),
      ("timestamp", JVal.str timestamp),
      ("environment", JVal.str (envOrDefault nodeEnv "development"))] }

/-- Counterexample to C8 as stated: the health response body carries no
`success` field at all, so not every JSON body of this layer has the
`{success: bool, …}` envelope; and the root response body carries no
status string. -/
theorem envelope_counterexample :
    (healthResponse "2026-10-11T00:00:00.000Z"
        (some "production")).body.lookup "success" = none ∧
    (rootResponse "2026-10-11T00:00:00.000Z").body.lookup "status" =
      none := by
  decide

/-- C8 (amended): the root endpoint answers 200 with a body holding
`success: true`, a message and the timestamp, but no status string; the
health endpoint answers 200 with a body holding `status: "OK"`, a
message, the timestamp and the environment, but no `success` field; in
particular a request to `/api/health` yields status 200 with a body
containing `status: "OK"`. -/
theorem response_envelopes (timestamp : String) (nodeEnv : Option String) :
    (rootResponse timestamp).status = 200 ∧
    (rootResponse timestamp).body.lookup "success" =
      some (JVal.bool true) ∧
    (rootResponse timestamp).body.lookup "message" =
      some (JVal.str "Backend Running Successfully 🚀") ∧
    (rootResponse timestamp).body.lookup "timestamp" =
      some (JVal.str timestamp) ∧
    (rootResponse timestamp).body.lookup "status" = none ∧
    (healthResponse timestamp nodeEnv).status = 200 ∧
    (healthResponse timestamp nodeEnv).body.lookup "status" =
      some (JVal.str "OK") ∧
    (healthResponse timestamp nodeEnv).body.lookup "timestamp" =
      some (JVal.str timestamp) ∧
    (healthResponse timestamp nodeEnv).body.lookup "environment" =
      some (JVal.str (envOrDefault nodeEnv "development")) ∧
    (healthResponse timestamp nodeEnv).body.lookup "success" = none := by
  refine ⟨rfl, rfl, rfl, rfl, rfl, rfl, rfl, rfl, rfl, rfl⟩

/-- The three limiter mounts of `server.js`: the general limiter on
`/api/` (line 27) and the auth limiter on `/api/auth/login` and
`/api/auth/register` (lines 36-37). -/
def limiterMounts : List (String × RateLimitConfig) :=
  [("/api/", limiter),
    ("/api/auth/login", authLimiter),
    ("/api/auth/register", authLimiter)]

/-- The rate limiters whose mount path matches a request path, in
registration order. -/
def limitersApplied (path : String) : List RateLimitConfig :=
  (limiterMounts.filter (fun m => mountMatches m.1 path)).map (fun m => m.2)

/-- A list `l` is a Boolean-equality prefix of `l ++ t`. -/
theorem isPrefixOf_append_self {α : Type} [BEq α] [LawfulBEq α]
    (l t : List α) : l.isPrefixOf (l ++ t) = true := by
  induction l with
  | nil => simp [List.isPrefixOf]
  | cons a l ih => simp [List.isPrefixOf, ih]

/-- C9: the general limiter's mount `/api/` matches every path that
continues the `/api/` prefix, so each such request — the health endpoint
`/api/health` included — consumes general-limiter quota; the health
endpoint passes through exactly the general limiter, while the root path
`/` matches no limiter mount at all. -/
theorem general_limiter_coverage (rest : String) :
    mountMatches "/api/" ("/api/" ++ rest) = true ∧
    limitersApplied "/api/health" = [limiter] ∧
    limitersApplied "/" = [] := by
  refine ⟨?_, by decide, by decide⟩
  have hm : mountMatches "/api/" ("/api/" ++ rest) =
      (("/api/" ++ rest).data == ['/', 'a', 'p', 'i'] ||
        (['/', 'a', 'p', 'i', '/']).isPrefixOf ("/api/" ++ rest).data) :=
    rfl
  rw [hm, String.data_append]
  have hd : "/api/".data = ['/', 'a', 'p', 'i', '/'] := rfl
  rw [hd, isPrefixOf_append_self]
  simp

/-- Per-client counters of the two limiters that match the auth
endpoints within one window: the general counter and the auth counter. -/
structure PipeState where
  general : Nat
  auth : Nat
  deriving DecidableEq, Repr

/-- One request to one of the auth endpoints (`/api/auth/login` or
`/api/auth/register`), passing through the general limiter first (its
mount `/api/` matches) and then, if admitted, the auth limiter.  A
rejection by the general limiter is terminal; otherwise the auth
limiter decides, and an admitted request's downstream outcome feeds the
auth limiter's success exemption. -/
def authEndpointRequest (s : PipeState) (o : Outcome) :
    PipeState × Decision :=
  let r1 := rateLimitRequest limiter s.general o
  match r1.2 with
  | Decision.reject st msg =>
      ({ s with general := r1.1 }, Decision.reject st msg)
  | Decision.proceed =>
      let r2 := rateLimitRequest authLimiter s.auth o
      ({ general := r1.1, auth := r2.1 }, r2.2)

/-- Run a sequence of auth-endpoint requests from a pipeline state. -/
def runAuthEndpoint (s : PipeState) :
    List Outcome → PipeState × List Decision
  | [] => (s, [])
  | o :: os =>
      let r := authEndpointRequest s o
      let rest := runAuthEndpoint r.1 os
      (rest.1, r.2 :: rest.2)

set_option maxRecDepth 10000 in
/-- C10: both limiter mounts match the auth endpoints; a request
admitted by both limiters increments both counters when it fails
downstream; a request is rejected whenever either counter is at its
limit (with the general limiter checked first); and 100 successful auth
requests from one client in a window — none of which consume auth-limiter
quota — exhaust the general limiter, so the 101st is rejected by the
general limiter even though the auth counter is still 0. -/
theorem auth_endpoints_dual_limiting :
    limitersApplied "/api/auth/login" = [limiter, authLimiter] ∧
    limitersApplied "/api/auth/register" = [limiter, authLimiter] ∧
    (∀ s : PipeState, s.general < 100 → s.auth < 5 →
      authEndpointRequest s Outcome.failure =
        ({ general := s.general + 1, auth := s.auth + 1 },
          Decision.proceed)) ∧
    (∀ (s : PipeState) (o : Outcome), 100 ≤ s.general →
      (authEndpointRequest s o).2 =
        Decision.reject 429
          "Too many requests from this IP, please try again later.") ∧
    (∀ (s : PipeState) (o : Outcome), s.general < 100 → 5 ≤ s.auth →
      (authEndpointRequest s o).2 =
        Decision.reject 429
          "Too many login attempts, please try again later.") ∧
    runAuthEndpoint { general := 0, auth := 0 }
        (List.replicate 100 Outcome.success) =
      ({ general := 100, auth := 0 },
        List.replicate 100 Decision.proceed) ∧
    (authEndpointRequest { general := 100, auth := 0 } Outcome.success).2 =
      Decision.reject 429
        "Too many requests from this IP, please try again later." := by
  refine ⟨by decide, by decide, ?_, ?_, ?_, by rfl, by rfl⟩
  · intro s hg ha
    simp only [authEndpointRequest, rateLimitRequest, limiter, authLimiter]
    rw [if_neg (by omega), if_neg (by omega)]
  · intro s o hg
    simp only [authEndpointRequest, rateLimitRequest, limiter]
    rw [if_pos (by omega)]
  · intro s o hg ha
    simp only [authEndpointRequest, rateLimitRequest, limiter, authLimiter]
    rw [if_neg (by omega)]
    rcases o with _ | _ <;> simp only [] <;> rw [if_pos (by omega)]

/-- Witness for C10 at concrete states: a failed attempt on fresh
counters increments both; a client at the general limit is rejected with
the general message; a client under the general limit but at the auth
limit is rejected with the auth message. -/
theorem auth_endpoints_dual_limiting_witness :
    authEndpointRequest { general := 0, auth := 0 } Outcome.failure =
      ({ general := 1, auth := 1 }, Decision.proceed) ∧
    (authEndpointRequest { general := 100, auth := 3 } Outcome.success).2 =
      Decision.reject 429
        "Too many requests from this IP, please try again later." ∧
    (authEndpointRequest { general := 7, auth := 5 } Outcome.success).2 =
      Decision.reject 429
        "Too many login attempts, please try again later." :=
  ⟨auth_endpoints_dual_limiting.2.2.1 { general := 0, auth := 0 }
      (by decide) (by decide),
    auth_endpoints_dual_limiting.2.2.2.1 { general := 100, auth := 3 }
      Outcome.success (by decide),
    auth_endpoints_dual_limiting.2.2.2.2.1 { general := 7, auth := 5 }
      Outcome.success (by decide) (by decide)⟩

end EAS
